import Mathlib

/-!
Verification of the `pyfluidsynth3` settings/coercion layer, the MIDI player
pause bookkeeping, and the music-box look-ahead scheduler.

The definitions below are a shallow embedding of the Python sources
(`pyfluidsynth3/fluidsettings.py`, `pyfluidsynth3/fluidplayer.py`,
`examples/music_box.py`).  Python floats are modelled as rationals (every
number appearing in the claims is exactly representable), Python ints as `Int`,
and the native libfluidsynth settings table — which is not part of this
repository — is modelled from the specification as an association list of
typed entries.
-/

namespace PyFluidSynth

/-- A Python value as it reaches the coercion helpers: an int, a float
(modelled as a rational) or a str. -/
inductive PyVal where
  | int : Int → PyVal
  | num : Rat → PyVal
  | str : String → PyVal
deriving DecidableEq, Repr

/-- Whitespace, as stripped by Python's `int()` / `float()` string parsing. -/
def isSpaceChar (c : Char) : Bool :=
  c = ' ' ∨ c = '\t' ∨ c = '\n' ∨ c = '\r'

/-- Strip leading and trailing whitespace from a character list. -/
def pyStrip (l : List Char) : List Char :=
  ((l.dropWhile isSpaceChar).reverse.dropWhile isSpaceChar).reverse

/-- Split a character list at every character satisfying `p` (separators are
dropped; empty segments are kept, as in Python's `str.split`). -/
def splitOnChar (p : Char → Bool) (l : List Char) : List (List Char) :=
  l.foldr
    (fun c acc =>
      if p c then [] :: acc
      else
        match acc with
        | [] => [[c]]
        | a :: rest => (c :: a) :: rest)
    [[]]

/-- ASCII lowercasing of one character (Python's `str.lower` restricted to
ASCII, which covers every string the claims mention). -/
def lowerChar (c : Char) : Char :=
  if 'A' ≤ c ∧ c ≤ 'Z' then Char.ofNat (c.toNat + 32) else c

/-- ASCII lowercasing of a string, as a character list. -/
def lowerList (l : List Char) : List Char :=
  l.map lowerChar

/-- Interpret a list of decimal digit characters as a natural number. -/
def digitsToNat (l : List Char) : Nat :=
  l.foldl (fun a c => a * 10 + (c.toNat - 48)) 0

/-- Embedding of Python's builtin `int(s)` on a string: optional surrounding
whitespace, an optional sign, then one or more decimal digits.  Returns `none`
where Python raises `ValueError` (e.g. on `"3.5"`, `"banana"`, `""`). -/
def pyParseInt (s : String) : Option Int :=
  let l := pyStrip s.toList
  match l with
  | [] => none
  | c :: rest =>
    let signed : Int × List Char :=
      if c = '-' then (-1, rest) else if c = '+' then (1, rest) else (1, l)
    if signed.2 ≠ [] ∧ signed.2.all Char.isDigit then
      some (signed.1 * (digitsToNat signed.2 : Int))
    else
      none

/-- Digits before and after an optional decimal point: the numerator and the
number of fractional digits, so that the mantissa value is `fst / 10 ^ snd`.
Accepts `"12"`, `"12.5"`, `".5"`, `"12."`; rejects anything non-numeric. -/
def parseUnsignedMantissa (l : List Char) : Option (Nat × Nat) :=
  match splitOnChar (fun c => c = '.') l with
  | [a] =>
    if a ≠ [] ∧ a.all Char.isDigit then
      some (digitsToNat a, 0)
    else none
  | [a, b] =>
    if (a ≠ [] ∨ b ≠ []) ∧ a.all Char.isDigit ∧ b.all Char.isDigit then
      some (digitsToNat a * 10 ^ b.length + digitsToNat b, b.length)
    else none
  | _ => none

/-- Assemble `sign * mantissa * 10 ^ exp` where the mantissa is
`m.1 / 10 ^ m.2`, as a single normalized rational. -/
def assembleFloat (sign : Int) (m : Nat × Nat) (exp : Int) : Rat :=
  if 0 ≤ exp then
    mkRat (sign * (m.1 : Int) * (10 : Int) ^ exp.toNat) (10 ^ m.2)
  else
    mkRat (sign * (m.1 : Int)) (10 ^ m.2 * 10 ^ (-exp).toNat)

/-- Embedding of Python's builtin `float(s)` on a string: optional surrounding
whitespace, optional sign, a decimal mantissa and an optional exponent part.
Returns `none` where Python raises `ValueError` (e.g. on `"off"`, `"banana"`).
Finite decimal literals are represented exactly as rationals. -/
def pyParseFloat (s : String) : Option Rat :=
  let t := pyStrip s.toList
  let signed : Int × List Char :=
    match t with
    | '-' :: rest => (-1, rest)
    | '+' :: rest => (1, rest)
    | _ => (1, t)
  match splitOnChar (fun c => c = 'e' ∨ c = 'E') signed.2 with
  | [m] => (parseUnsignedMantissa m).map (fun mv => assembleFloat signed.1 mv 0)
  | [m, e] =>
    match parseUnsignedMantissa m, pyParseInt (String.mk e) with
    | some mv, some ev => some (assembleFloat signed.1 mv ev)
    | _, _ => none
  | _ => none

/-- Embedding of Python's `int(x)` on a float: truncation toward zero. -/
def pyTrunc (q : Rat) : Int :=
  if 0 ≤ q then ⌊q⌋ else ⌈q⌉

/-- The tuple `('false', 'no', 'off')` from `_coerce_to_int` /
`_coerce_to_float` (fluidsettings.py lines 144 and 152). -/
def falsyStrings : List String := ["false", "no", "off"]

/-- Embedding of `FluidSettings._coerce_to_float` (fluidsettings.py lines
146-152): `float(string_value)`, and on `ValueError` (only raised for
non-numeric strings) fall back to
`float(string_value.lower() not in ('false', 'no', 'off'))`. -/
def coerce_to_float (v : PyVal) : Rat :=
  match v with
  | .int n => (n : Rat)
  | .num q => q
  | .str s =>
    match pyParseFloat s with
    | some q => q
    | none => if String.mk (lowerList s.toList) ∈ falsyStrings then 0 else 1

/-- Embedding of `FluidSettings._coerce_to_int` (fluidsettings.py lines
138-144): `int(string_value)` — truncation for numeric input, integer-literal
parsing for strings — and on `ValueError` fall back to
`int(string_value.lower() not in ('false', 'no', 'off'))`. -/
def coerce_to_int (v : PyVal) : Int :=
  match v with
  | .int n => n
  | .num q => pyTrunc q
  | .str s =>
    match pyParseInt s with
    | some n => n
    | none => if String.mk (lowerList s.toList) ∈ falsyStrings then 0 else 1

/-! ## Constants

`constants.py` is part of this repository but missing from the sources at
hand; its values are fixed by the docstring of `_normalize_ret_code`
(fluidsettings.py lines 157-159: `0 (FLUID_OK)`, `-1 (FLUID_FAILED)`) and by
the specification's on/off wording for the quality table. -/

/-- Modelled from the spec: `constants.OK`, the uniform success code
(libfluidsynth v2 `FLUID_OK`, documented as `0` in fluidsettings.py). -/
def OK : Int := 0

/-- Modelled from the spec: `constants.FAILED`, the uniform failure code
(libfluidsynth v2 `FLUID_FAILED`, documented as `-1` in fluidsettings.py). -/
def FAILED : Int := -1

/-- Modelled from the spec: `constants.TRUE`, the "on" value written to the
active-switch settings keys (the example scripts write the string `'yes'` to
the same keys). -/
def cTRUE : PyVal := .str "yes"

/-- Modelled from the spec: `constants.FALSE`, the "off" value written to the
active-switch settings keys (the example scripts write the string `'no'`). -/
def cFALSE : PyVal := .str "no"

/-- Settings-kind constant `FLUID_NO_TYPE` (fluidsettings.py line 36-40). -/
def FLUID_NO_TYPE : Int := -1

/-- Settings-kind constant `FLUID_NUM_TYPE`. -/
def FLUID_NUM_TYPE : Int := 0

/-- Settings-kind constant `FLUID_INT_TYPE`. -/
def FLUID_INT_TYPE : Int := 1

/-- Settings-kind constant `FLUID_STR_TYPE`. -/
def FLUID_STR_TYPE : Int := 2

/-- Settings-kind constant `FLUID_SET_TYPE`. -/
def FLUID_SET_TYPE : Int := 3

/-- Quality preset label `FluidSettings.QUALITY_LOW` (fluidsettings.py line
42). -/
def QUALITY_LOW : String := "low"

/-- Quality preset label `FluidSettings.QUALITY_MEDIUM` (line 43). -/
def QUALITY_MEDIUM : String := "med"

/-- Quality preset label `FluidSettings.QUALITY_HIGH` (line 44). -/
def QUALITY_HIGH : String := "high"

/-! ## The native settings table

The wrapped libfluidsynth settings object is external to this repository;
the model below follows §3 and §6 of the specification: a table of dotted
keys, each with a fixed kind (numeric, integer or string) and a current
value, plus the library's major version and the capability facts the wrapper
branches on. -/

/-- A value stored in the native settings table, tagged with its kind. -/
inductive Stored where
  | num : Rat → Stored
  | int : Int → Stored
  | str : String → Stored
deriving DecidableEq, Repr

/-- Modelled from the spec: the state of the linked native library — the
settings table (association list key ↦ stored value), the library's major
version as reported by `handle.get_version()`, whether the handle still has
`fluid_settings_getstr` (removed in libfluidsynth 2.0.0), and the keys whose
writes the library refuses (spec §4.1: "underlying write rejection"). -/
structure LibState where
  entries : List (String × Stored)
  version : Int
  hasGetstr : Bool
  rejectKeys : List String
deriving DecidableEq, Repr

/-- Look up a key in an association list of entries. -/
def lookupEntry : List (String × Stored) → String → Option Stored
  | [], _ => none
  | e :: t, k => if e.1 = k then some e.2 else lookupEntry t k

/-- Replace the value of every entry holding the given key. -/
def storeEntry : List (String × Stored) → String → Stored → List (String × Stored)
  | [], _, _ => []
  | e :: t, k, v =>
    if e.1 = k then (k, v) :: storeEntry t k v else e :: storeEntry t k v

/-- Look up the stored value of a key in the native table. -/
def LibState.find (lib : LibState) (key : String) : Option Stored :=
  lookupEntry lib.entries key

/-- Overwrite the stored value of an existing key, leaving every other entry
unchanged (a write to a key the table does not hold is refused upstream, so
`store` is only reached for existing keys). -/
def LibState.store (lib : LibState) (key : String) (v : Stored) : LibState :=
  { lib with entries := storeEntry lib.entries key v }

/-- One call made into the native library, for tracing which operations the
wrapper performs. -/
inductive LibCall where
  | newSettings
  | getType : String → LibCall
  | getnum : String → LibCall
  | getint : String → LibCall
  | getstr : String → LibCall
  | setnum : String → Rat → LibCall
  | setint : String → Int → LibCall
  | setstr : String → String → LibCall
  | getVersion
deriving DecidableEq, Repr

/-- Whether a traced call is the `handle.get_version()` query. -/
def isGetVersion : LibCall → Bool
  | .getVersion => true
  | _ => false

/-- Modelled from the spec: `fluid_settings_get_type` — the kind of a key as
reported by the native table (`-1` when the key is absent). -/
def fluid_settings_get_type (lib : LibState) (key : String) : Int :=
  match lib.find key with
  | some (.num _) => FLUID_NUM_TYPE
  | some (.int _) => FLUID_INT_TYPE
  | some (.str _) => FLUID_STR_TYPE
  | none => FLUID_NO_TYPE

/-- Modelled from the spec: the raw return code of a `fluid_settings_set*`
call under the linked library's convention — version 1 returns `1` on success
and `0` on failure; version ≥ 2 returns `0` (`FLUID_OK`) on success and `-1`
(`FLUID_FAILED`) on failure (docstring of `_normalize_ret_code`). -/
def rawCode (version : Int) (success : Bool) : Int :=
  if version = 1 then (if success then 1 else 0)
  else (if success then 0 else -1)

/-- Modelled from the spec: `fluid_settings_setnum` — stores the float when
the key exists with numeric kind and is not refused, and reports the raw
version-convention code. -/
def fluid_settings_setnum (lib : LibState) (key : String) (q : Rat) :
    Int × LibState :=
  let ok :=
    (match lib.find key with | some (.num _) => true | _ => false) &&
      !(lib.rejectKeys.contains key)
  if ok then (rawCode lib.version true, lib.store key (.num q))
  else (rawCode lib.version false, lib)

/-- Modelled from the spec: `fluid_settings_setint`. -/
def fluid_settings_setint (lib : LibState) (key : String) (n : Int) :
    Int × LibState :=
  let ok :=
    (match lib.find key with | some (.int _) => true | _ => false) &&
      !(lib.rejectKeys.contains key)
  if ok then (rawCode lib.version true, lib.store key (.int n))
  else (rawCode lib.version false, lib)

/-- Modelled from the spec: `fluid_settings_setstr`. -/
def fluid_settings_setstr (lib : LibState) (key : String) (s : String) :
    Int × LibState :=
  let ok :=
    (match lib.find key with | some (.str _) => true | _ => false) &&
      !(lib.rejectKeys.contains key)
  if ok then (rawCode lib.version true, lib.store key (.str s))
  else (rawCode lib.version false, lib)

/-- Modelled from the spec: `fluid_settings_getnum` — the stored float and a
truthy success flag, `none` when the read fails. -/
def fluid_settings_getnum (lib : LibState) (key : String) : Option Rat :=
  match lib.find key with
  | some (.num q) => some q
  | _ => none

/-- Modelled from the spec: `fluid_settings_getint`. -/
def fluid_settings_getint (lib : LibState) (key : String) : Option Int :=
  match lib.find key with
  | some (.int n) => some n
  | _ => none

/-- Modelled from the spec: `fluid_settings_getstr`. -/
def fluid_settings_getstr (lib : LibState) (key : String) : Option String :=
  match lib.find key with
  | some (.str s) => some s
  | _ => none

/-! ## The FluidSettings wrapper -/

/-- The Python exception a settings operation can raise: the source only ever
raises `KeyError(key)` (fluidsettings.py lines 103, 105, 110, 122, 128, 134,
136). -/
inductive PyErr where
  | keyError : String → PyErr
deriving DecidableEq, Repr

/-- The observable state of a `FluidSettings` object: the native library it
drives and the cached `_quality` label. -/
structure FluidSettings where
  lib : LibState
  quality : String
deriving DecidableEq, Repr

/-- Result of a mutating wrapper operation: the exception raised (if any),
the object state afterwards — Python mutations persist even when an
exception propagates — and the native calls performed. -/
structure OpResult where
  err : Option PyErr
  fs : FluidSettings
  calls : List LibCall
deriving Repr

/-- Sequence two mutating operations: the second runs only when the first
raised nothing, mirroring exception propagation. -/
def andThen (r : OpResult) (k : FluidSettings → OpResult) : OpResult :=
  match r.err with
  | some _ => r
  | none =>
    let r2 := k r.fs
    ⟨r2.err, r2.fs, r.calls ++ r2.calls⟩

/-- Embedding of `FluidSettings._normalize_ret_code` (fluidsettings.py lines
154-169): under a version-1 library a raw `1` becomes `constants.OK` and any
other raw code becomes `constants.FAILED`; under any other version the raw
code is returned unchanged. -/
def normalize_ret_code (version : Int) (ret_code : Int) : Int :=
  if version = 1 then (if ret_code = 1 then OK else FAILED)
  else ret_code

/-- Result of a read: the exception raised (if any), the value returned (if
none was raised) and the native calls performed. -/
structure GetResult where
  err : Option PyErr
  val : Option Stored
  calls : List LibCall
deriving DecidableEq, Repr

/-- Embedding of `FluidSettings.__getitem__` (fluidsettings.py lines 84-110).
The kind probe dispatches to the typed getter; a string-kind key on a handle
without `fluid_settings_getstr` raises `KeyError` (lines 98-103), as do an
unrecognized kind (line 105) and a failed read (line 110).  `getitem` does
not mutate, so it returns the value or error plus the calls made. -/
def getitem (fs : FluidSettings) (key : String) : GetResult :=
  let kt := fluid_settings_get_type fs.lib key
  if kt = FLUID_NUM_TYPE then
    match fluid_settings_getnum fs.lib key with
    | some q => ⟨none, some (.num q), [.getType key, .getnum key]⟩
    | none => ⟨some (.keyError key), none, [.getType key, .getnum key]⟩
  else if kt = FLUID_INT_TYPE then
    match fluid_settings_getint fs.lib key with
    | some n => ⟨none, some (.int n), [.getType key, .getint key]⟩
    | none => ⟨some (.keyError key), none, [.getType key, .getint key]⟩
  else if kt = FLUID_STR_TYPE then
    if fs.lib.hasGetstr then
      match fluid_settings_getstr fs.lib key with
      | some s => ⟨none, some (.str s), [.getType key, .getstr key]⟩
      | none => ⟨some (.keyError key), none, [.getType key, .getstr key]⟩
    else ⟨some (.keyError key), none, [.getType key]⟩
  else ⟨some (.keyError key), none, [.getType key]⟩

/-- Modelled from the spec: `utility.fluidstring` applied to the value of a
string-kind write — the value's string form. -/
def pyStr : PyVal → String
  | .str s => s
  | .int n => toString n
  | .num q => toString q

/-- Embedding of `FluidSettings.__setitem__` (fluidsettings.py lines
112-136): dispatch on the key's kind (string first, then numeric, then
integer, exactly as the source), coerce the value, forward it, normalize the
raw return code — which queries `handle.get_version()` — and raise
`KeyError(key)` when the normalized code is `constants.FAILED` or the kind is
unrecognized. -/
def setitem (fs : FluidSettings) (key : String) (value : PyVal) : OpResult :=
  let kt := fluid_settings_get_type fs.lib key
  if kt = FLUID_STR_TYPE then
    let v := pyStr value
    let r := fluid_settings_setstr fs.lib key v
    ⟨if normalize_ret_code fs.lib.version r.1 = FAILED then
        some (.keyError key)
      else none,
      { fs with lib := r.2 },
      [.getType key, .setstr key v, .getVersion]⟩
  else if kt = FLUID_NUM_TYPE then
    let v := coerce_to_float value
    let r := fluid_settings_setnum fs.lib key v
    ⟨if normalize_ret_code fs.lib.version r.1 = FAILED then
        some (.keyError key)
      else none,
      { fs with lib := r.2 },
      [.getType key, .setnum key v, .getVersion]⟩
  else if kt = FLUID_INT_TYPE then
    let v := coerce_to_int value
    let r := fluid_settings_setint fs.lib key v
    ⟨if normalize_ret_code fs.lib.version r.1 = FAILED then
        some (.keyError key)
      else none,
      { fs with lib := r.2 },
      [.getType key, .setint key v, .getVersion]⟩
  else ⟨some (.keyError key), fs, [.getType key]⟩

/-- Embedding of the `quality` setter (fluidsettings.py lines 60-78): cache
the label in `_quality`, then — for a recognized preset — write the three
underlying keys; an unrecognized label performs no write at all. -/
def setQuality (fs : FluidSettings) (q : String) : OpResult :=
  let fs0 := { fs with quality := q }
  if q = QUALITY_LOW then
    andThen (andThen (setitem fs0 "synth.chorus.active" cFALSE)
        (fun fs1 => setitem fs1 "synth.reverb.active" cFALSE))
      (fun fs2 => setitem fs2 "synth.sample-rate" (.int 22050))
  else if q = QUALITY_MEDIUM then
    andThen (andThen (setitem fs0 "synth.chorus.active" cFALSE)
        (fun fs1 => setitem fs1 "synth.reverb.active" cTRUE))
      (fun fs2 => setitem fs2 "synth.sample-rate" (.int 44100))
  else if q = QUALITY_HIGH then
    andThen (andThen (setitem fs0 "synth.chorus.active" cTRUE)
        (fun fs1 => setitem fs1 "synth.reverb.active" cTRUE))
      (fun fs2 => setitem fs2 "synth.sample-rate" (.int 44100))
  else ⟨none, fs0, []⟩

/-- Embedding of the `quality` getter (fluidsettings.py lines 55-58): the
cached label, never re-derived from the table. -/
def getQuality (fs : FluidSettings) : String :=
  fs.quality

/-- Embedding of `FluidSettings.__init__` (fluidsettings.py lines 46-53):
create the native settings object and set the default quality preset to
medium through the `quality` setter. -/
def FluidSettings.init (lib : LibState) : OpResult :=
  let fs0 : FluidSettings := ⟨lib, ""⟩
  let r := setQuality fs0 QUALITY_MEDIUM
  ⟨r.err, r.fs, .newSettings :: r.calls⟩

/-- A concrete native library state with libfluidsynth-2 defaults for the
keys the quality preset touches (used as witness input). -/
def defaultLib : LibState :=
  { entries :=
      [("synth.chorus.active", .int 0),
       ("synth.reverb.active", .int 0),
       ("synth.sample-rate", .num 44100),
       ("synth.gain", .num (mkRat 2 10)),
       ("audio.driver", .str "jack")],
    version := 2,
    hasGetstr := false,
    rejectKeys := [] }

/-- A concrete library state whose key `"k"` is string-kind while the handle
has lost `fluid_settings_getstr` (the libfluidsynth-2 situation). -/
def strLibNoGetstr : LibState :=
  { entries := [("k", .str "v")], version := 2, hasGetstr := false, rejectKeys := [] }

/-- A concrete library state that does not hold the key `"k"` at all. -/
def emptyLib : LibState :=
  { entries := [], version := 2, hasGetstr := true, rejectKeys := [] }

/-- A concrete library state whose key `"k"` is numeric-kind but whose writes
to `"k"` the library refuses. -/
def rejectingLib : LibState :=
  { entries := [("k", .num 0)], version := 2, hasGetstr := true, rejectKeys := ["k"] }

/-- The three keys written by the quality preset exist with their
libfluidsynth kinds (integer switches, numeric sample rate) and none of their
writes is refused. -/
def qualityKeysOK (lib : LibState) : Prop :=
  (∃ a, lib.find "synth.chorus.active" = some (.int a)) ∧
  (∃ b, lib.find "synth.reverb.active" = some (.int b)) ∧
  (∃ c, lib.find "synth.sample-rate" = some (.num c)) ∧
  lib.rejectKeys.contains "synth.chorus.active" = false ∧
  lib.rejectKeys.contains "synth.reverb.active" = false ∧
  lib.rejectKeys.contains "synth.sample-rate" = false

/-! ## The FluidPlayer wrapper (fluidplayer.py)

Only the `paused` bookkeeping and the play/stop/pause control flow are
embedded; the native player's playing status is modelled from the spec
(§6: "play/stop" calls drive the external player). -/

/-- Observable state of a `FluidPlayer`: the wrapper's `paused` flag and —
modelled from the spec — whether the native player is actually playing after
the forwarded `fluid_player_play` / `fluid_player_stop` calls. -/
structure PlayerState where
  paused : Bool
  playing : Bool
deriving DecidableEq, Repr

/-- Embedding of `FluidPlayer.__init__` (fluidplayer.py lines 22-26): a fresh
player is not playing and `paused` is `True`. -/
def initPlayer : PlayerState :=
  ⟨true, false⟩

/-- Embedding of `FluidPlayer.play` (fluidplayer.py lines 41-47):
`fluid_player_play` starts the native player, then `paused = False`. -/
def FluidPlayer.play (p : PlayerState) : PlayerState :=
  let p1 := { p with playing := true }
  { p1 with paused := false }

/-- Embedding of `FluidPlayer.stop` (fluidplayer.py lines 65-68):
`fluid_player_stop` halts the native player, then `paused = True`. -/
def FluidPlayer.stop (p : PlayerState) : PlayerState :=
  let p1 := { p with playing := false }
  { p1 with paused := true }

/-- Embedding of `FluidPlayer.pause` (fluidplayer.py lines 185-191): call
`play()` when `paused` is set, otherwise `stop()`, then assign
`paused = not paused` — reading the flag `play()`/`stop()` just wrote. -/
def FluidPlayer.pause (p : PlayerState) : PlayerState :=
  let p1 := if p.paused then FluidPlayer.play p else FluidPlayer.stop p
  { p1 with paused := !p1.paused }

/-! ## The music-box look-ahead scheduler (examples/music_box.py) -/

/-- `TPB` — ticks per beat (music_box.py line 30). -/
def TPB : Int := 240

/-- `SEQ_DURATION` — the window duration, four beats (music_box.py line
43). -/
def SEQ_DURATION : Int := 4 * TPB

/-- Modelled from the spec: one timestamped message submitted to the external
sequencer — a note-on addressed to the synthesizer or a timer wake-up
addressed back to the scheduler (spec §6). -/
inductive MBEvent where
  | noteon : Int → Int → Int → Int → MBEvent
  | timer : Int → MBEvent
deriving DecidableEq, Repr

/-- Whether a submitted message is the timer wake-up. -/
def isTimer : MBEvent → Bool
  | .timer _ => true
  | _ => false

/-- Embedding of `send_noteon` (music_box.py lines 100-105): a note-on with
velocity 127 at an absolute date. -/
def send_noteon (channel key date : Int) : MBEvent :=
  .noteon channel key 127 date

/-- Embedding of `schedule_next_callback` (music_box.py lines 112-119): one
timer event addressed back to the scheduler at
`int(SEQ_START + SEQ_DURATION / 2)` (the Python float division is exact here:
`SEQ_DURATION / 2 = 480.0`). -/
def schedule_next_callback (seq_start : Int) : MBEvent :=
  .timer (seq_start + SEQ_DURATION / 2)

/-- Embedding of `schedule_next_sequence` (music_box.py lines 122-145): the
bass line, the melody, the single wake-up timer, and the advanced
`SEQ_START`.  Returns the submitted messages and the new `SEQ_START`. -/
def schedule_next_sequence (seq_start : Int) : List MBEvent × Int :=
  ([send_noteon 0 60 seq_start,
    send_noteon 0 55 (seq_start + 2 * TPB),
    send_noteon 1 72 seq_start,
    send_noteon 1 76 (seq_start + TPB),
    send_noteon 1 79 (seq_start + 2 * TPB),
    send_noteon 1 76 (seq_start + 3 * TPB),
    schedule_next_callback seq_start],
   seq_start + SEQ_DURATION)

/-- The start tick of window `n`: `SEQ_START` after `n` consecutive
emissions, starting from the priming tick `s0`. -/
def windowStart (s0 : Int) : Nat → Int
  | 0 => s0
  | n + 1 => (schedule_next_sequence (windowStart s0 n)).2

/-! ## Helper lemmas -/

theorem normalize_rawCode_false (v : Int) :
    normalize_ret_code v (rawCode v false) = FAILED := by
  by_cases h : v = 1 <;> simp [normalize_ret_code, rawCode, h, OK, FAILED]

theorem normalize_rawCode_true (v : Int) :
    normalize_ret_code v (rawCode v true) ≠ FAILED := by
  by_cases h : v = 1 <;> simp [normalize_ret_code, rawCode, h, OK, FAILED]

theorem lookupEntry_store_ne (l : List (String × Stored)) (k k2 : String)
    (v : Stored) (h : k2 ≠ k) :
    lookupEntry (storeEntry l k v) k2 = lookupEntry l k2 := by
  induction l with
  | nil => rfl
  | cons e t ih =>
    by_cases he : e.1 = k
    · have hk2 : ¬((k, v).1 = k2) := by simp [Ne.symm h]
      have he2 : ¬(e.1 = k2) := by rw [he]; exact fun hh => h hh.symm
      simp [storeEntry, lookupEntry, he, hk2, he2, ih]
    · by_cases he2 : e.1 = k2
      · simp [storeEntry, lookupEntry, he, he2, h]
      · simp [storeEntry, lookupEntry, he, he2, ih]

theorem lookupEntry_store_self (l : List (String × Stored)) (k : String)
    (v w : Stored) (h : lookupEntry l k = some w) :
    lookupEntry (storeEntry l k v) k = some v := by
  induction l with
  | nil => simp [lookupEntry] at h
  | cons e t ih =>
    by_cases he : e.1 = k
    · simp [storeEntry, lookupEntry, he]
    · simp [storeEntry, lookupEntry, he] at h ⊢
      exact ih h

theorem find_store_ne (lib : LibState) (k k2 : String) (v : Stored)
    (h : k2 ≠ k) : (lib.store k v).find k2 = lib.find k2 :=
  lookupEntry_store_ne lib.entries k k2 v h

theorem find_store_self (lib : LibState) (k : String) (v w : Stored)
    (h : lib.find k = some w) : (lib.store k v).find k = some v :=
  lookupEntry_store_self lib.entries k v w h

theorem store_rejectKeys (lib : LibState) (k : String) (v : Stored) :
    (lib.store k v).rejectKeys = lib.rejectKeys := rfl

theorem store_version (lib : LibState) (k : String) (v : Stored) :
    (lib.store k v).version = lib.version := rfl

theorem setitem_int_ok (fs : FluidSettings) (k : String) (v : PyVal) (n : Int)
    (hf : fs.lib.find k = some (.int n))
    (hr : fs.lib.rejectKeys.contains k = false) :
    setitem fs k v =
      ⟨none, ⟨fs.lib.store k (.int (coerce_to_int v)), fs.quality⟩,
        [.getType k, .setint k (coerce_to_int v), .getVersion]⟩ := by
  have hk : fluid_settings_get_type fs.lib k = FLUID_INT_TYPE := by
    simp [fluid_settings_get_type, hf]
  have hr2 : k ∉ fs.lib.rejectKeys := by simpa using hr
  simp [setitem, hk, FLUID_STR_TYPE, FLUID_INT_TYPE, FLUID_NUM_TYPE,
    fluid_settings_setint, hf, hr2, normalize_rawCode_true fs.lib.version]

theorem setitem_num_ok (fs : FluidSettings) (k : String) (v : PyVal) (q : Rat)
    (hf : fs.lib.find k = some (.num q))
    (hr : fs.lib.rejectKeys.contains k = false) :
    setitem fs k v =
      ⟨none, ⟨fs.lib.store k (.num (coerce_to_float v)), fs.quality⟩,
        [.getType k, .setnum k (coerce_to_float v), .getVersion]⟩ := by
  have hk : fluid_settings_get_type fs.lib k = FLUID_NUM_TYPE := by
    simp [fluid_settings_get_type, hf]
  have hr2 : k ∉ fs.lib.rejectKeys := by simpa using hr
  simp [setitem, hk, FLUID_STR_TYPE, FLUID_INT_TYPE, FLUID_NUM_TYPE,
    fluid_settings_setnum, hf, hr2, normalize_rawCode_true fs.lib.version]

theorem getitem_int_val (fs : FluidSettings) (k : String) (n : Int)
    (hf : fs.lib.find k = some (.int n)) :
    getitem fs k = ⟨none, some (.int n), [.getType k, .getint k]⟩ := by
  have hk : fluid_settings_get_type fs.lib k = FLUID_INT_TYPE := by
    simp [fluid_settings_get_type, hf]
  simp [getitem, hk, FLUID_STR_TYPE, FLUID_INT_TYPE, FLUID_NUM_TYPE,
    fluid_settings_getint, hf]

theorem getitem_num_val (fs : FluidSettings) (k : String) (q : Rat)
    (hf : fs.lib.find k = some (.num q)) :
    getitem fs k = ⟨none, some (.num q), [.getType k, .getnum k]⟩ := by
  have hk : fluid_settings_get_type fs.lib k = FLUID_NUM_TYPE := by
    simp [fluid_settings_get_type, hf]
  simp [getitem, hk, FLUID_STR_TYPE, FLUID_INT_TYPE, FLUID_NUM_TYPE,
    fluid_settings_getnum, hf]

theorem quality_chain_spec (fs : FluidSettings) (h : qualityKeysOK fs.lib)
    (vc vr vs : PyVal) :
    andThen (andThen (setitem fs "synth.chorus.active" vc)
        (fun fs1 => setitem fs1 "synth.reverb.active" vr))
      (fun fs2 => setitem fs2 "synth.sample-rate" vs) =
      ⟨none,
        ⟨((fs.lib.store "synth.chorus.active" (.int (coerce_to_int vc))).store
            "synth.reverb.active" (.int (coerce_to_int vr))).store
            "synth.sample-rate" (.num (coerce_to_float vs)), fs.quality⟩,
        [.getType "synth.chorus.active",
         .setint "synth.chorus.active" (coerce_to_int vc), .getVersion,
         .getType "synth.reverb.active",
         .setint "synth.reverb.active" (coerce_to_int vr), .getVersion,
         .getType "synth.sample-rate",
         .setnum "synth.sample-rate" (coerce_to_float vs), .getVersion]⟩ := by
  obtain ⟨⟨a, ha⟩, ⟨b, hb⟩, ⟨c, hc⟩, hr1, hr2, hr3⟩ := h
  have ne21 : ("synth.reverb.active" : String) ≠ "synth.chorus.active" := by decide
  have ne31 : ("synth.sample-rate" : String) ≠ "synth.chorus.active" := by decide
  have ne32 : ("synth.sample-rate" : String) ≠ "synth.reverb.active" := by decide
  have e1 := setitem_int_ok fs "synth.chorus.active" vc a ha hr1
  set lib1 := fs.lib.store "synth.chorus.active" (.int (coerce_to_int vc))
    with hlib1
  have hb1 : lib1.find "synth.reverb.active" = some (.int b) := by
    rw [hlib1, find_store_ne _ _ _ _ ne21]; exact hb
  have e2 := setitem_int_ok ⟨lib1, fs.quality⟩ "synth.reverb.active" vr b hb1 hr2
  set lib2 := lib1.store "synth.reverb.active" (.int (coerce_to_int vr))
    with hlib2
  have hc2 : lib2.find "synth.sample-rate" = some (.num c) := by
    rw [hlib2, find_store_ne _ _ _ _ ne32, hlib1, find_store_ne _ _ _ _ ne31]
    exact hc
  have e3 := setitem_num_ok ⟨lib2, fs.quality⟩ "synth.sample-rate" vs c hc2 hr3
  rw [e1]
  simp only [andThen]
  rw [e2]
  simp only [andThen]
  rw [e3]
  simp

theorem setQuality_low_spec (fs : FluidSettings) (h : qualityKeysOK fs.lib) :
    setQuality fs QUALITY_LOW =
      ⟨none,
        ⟨((fs.lib.store "synth.chorus.active" (.int 0)).store
            "synth.reverb.active" (.int 0)).store
            "synth.sample-rate" (.num 22050), QUALITY_LOW⟩,
        [.getType "synth.chorus.active", .setint "synth.chorus.active" 0,
         .getVersion,
         .getType "synth.reverb.active", .setint "synth.reverb.active" 0,
         .getVersion,
         .getType "synth.sample-rate", .setnum "synth.sample-rate" 22050,
         .getVersion]⟩ := by
  have hq := quality_chain_spec ⟨fs.lib, QUALITY_LOW⟩ h cFALSE cFALSE (.int 22050)
  have h1 : coerce_to_int cFALSE = 0 := by decide
  have h2 : coerce_to_float (PyVal.int 22050) = (22050 : Rat) := by decide
  rw [h1, h2] at hq
  simp only [setQuality]
  simpa using hq

theorem setQuality_med_spec (fs : FluidSettings) (h : qualityKeysOK fs.lib) :
    setQuality fs QUALITY_MEDIUM =
      ⟨none,
        ⟨((fs.lib.store "synth.chorus.active" (.int 0)).store
            "synth.reverb.active" (.int 1)).store
            "synth.sample-rate" (.num 44100), QUALITY_MEDIUM⟩,
        [.getType "synth.chorus.active", .setint "synth.chorus.active" 0,
         .getVersion,
         .getType "synth.reverb.active", .setint "synth.reverb.active" 1,
         .getVersion,
         .getType "synth.sample-rate", .setnum "synth.sample-rate" 44100,
         .getVersion]⟩ := by
  have hq := quality_chain_spec ⟨fs.lib, QUALITY_MEDIUM⟩ h cFALSE cTRUE (.int 44100)
  have h1 : coerce_to_int cFALSE = 0 := by decide
  have h1b : coerce_to_int cTRUE = 1 := by decide
  have h2 : coerce_to_float (PyVal.int 44100) = (44100 : Rat) := by decide
  rw [h1, h1b, h2] at hq
  simp only [setQuality]
  simpa using hq

theorem setQuality_high_spec (fs : FluidSettings) (h : qualityKeysOK fs.lib) :
    setQuality fs QUALITY_HIGH =
      ⟨none,
        ⟨((fs.lib.store "synth.chorus.active" (.int 1)).store
            "synth.reverb.active" (.int 1)).store
            "synth.sample-rate" (.num 44100), QUALITY_HIGH⟩,
        [.getType "synth.chorus.active", .setint "synth.chorus.active" 1,
         .getVersion,
         .getType "synth.reverb.active", .setint "synth.reverb.active" 1,
         .getVersion,
         .getType "synth.sample-rate", .setnum "synth.sample-rate" 44100,
         .getVersion]⟩ := by
  have hq := quality_chain_spec ⟨fs.lib, QUALITY_HIGH⟩ h cTRUE cTRUE (.int 44100)
  have h1 : coerce_to_int cTRUE = 1 := by decide
  have h2 : coerce_to_float (PyVal.int 44100) = (44100 : Rat) := by decide
  rw [h1, h2] at hq
  simp only [setQuality]
  simpa using hq

theorem setitem_quality (fs : FluidSettings) (k : String) (v : PyVal) :
    (setitem fs k v).fs.quality = fs.quality := by
  simp only [setitem]
  split_ifs <;> rfl

theorem andThen_quality (r : OpResult) (k : FluidSettings → OpResult)
    (hk : ∀ g, (k g).fs.quality = g.quality) :
    (andThen r k).fs.quality = r.fs.quality := by
  rcases hre : r.err with _ | e <;> simp [andThen, hre, hk]

theorem setQuality_sets_label (fs : FluidSettings) (q : String) :
    (setQuality fs q).fs.quality = q := by
  simp only [setQuality]
  split_ifs with h1 h2 h3 <;>
    try rw [andThen_quality _ _ (fun g => setitem_quality g _ _),
      andThen_quality _ _ (fun g => setitem_quality g _ _),
      setitem_quality]
  all_goals rfl

/-! ## Claim theorems -/

/-- C1: writing to a numeric-kind key coerces with `_coerce_to_float`: a
numeric value passes through as `float(v)`, a string parseable as a float
yields the parsed value (so `coerce("3.5") = 3.5`), and a non-parseable
string yields `0.0` when its lowercased form is one of `"false"`, `"no"`,
`"off"` (so `coerce("off") = 0.0`) and `1.0` for any other string (so
`coerce("true") = 1.0` and `coerce("banana") = 1.0`). -/
theorem coerce_to_float_spec :
    (∀ n : Int, coerce_to_float (.int n) = (n : Rat)) ∧
    (∀ q : Rat, coerce_to_float (.num q) = q) ∧
    (∀ s q, pyParseFloat s = some q → coerce_to_float (.str s) = q) ∧
    (∀ s, pyParseFloat s = none →
      String.mk (lowerList s.toList) ∈ falsyStrings →
      coerce_to_float (.str s) = 0) ∧
    (∀ s, pyParseFloat s = none →
      String.mk (lowerList s.toList) ∉ falsyStrings →
      coerce_to_float (.str s) = 1) ∧
    coerce_to_float (.str "3.5") = mkRat 7 2 ∧
    coerce_to_float (.str "off") = 0 ∧
    coerce_to_float (.str "true") = 1 ∧
    coerce_to_float (.str "banana") = 1 := by
  refine ⟨fun n => rfl, fun q => rfl,
    fun s q h => by simp [coerce_to_float, h],
    fun s h hm => by
      simp only [String.toList] at hm
      simp [coerce_to_float, h, hm],
    fun s h hm => by
      simp only [String.toList] at hm
      simp [coerce_to_float, h, hm],
    by decide, by decide, by decide, by decide⟩

/-- Witness for C1: the general clauses applied at the concrete strings
`"3.5"`, `"off"` and `"banana"`. -/
theorem coerce_to_float_spec_witness :
    coerce_to_float (.str "3.5") = mkRat 7 2 ∧
    coerce_to_float (.str "off") = 0 ∧
    coerce_to_float (.str "banana") = 1 :=
  ⟨coerce_to_float_spec.2.2.1 "3.5" (mkRat 7 2) (by decide),
   coerce_to_float_spec.2.2.2.1 "off" (by decide) (by decide),
   coerce_to_float_spec.2.2.2.2.1 "banana" (by decide) (by decide)⟩

/-- C2 counterexample: the claim asserts the integer-kind coercion maps the
string `"3.5"` to the truncated value `3`; in the code `int("3.5")` raises
`ValueError` (Python's `int` does not accept fractional literals), so the
fallback path yields `1`. -/
theorem coerce_to_int_fractional_counterexample :
    coerce_to_int (.str "3.5") = 1 ∧ ¬ coerce_to_int (.str "3.5") = 3 := by
  decide

/-- C2 amended: an already-numeric value converts to its integer value
truncated toward zero; a string that parses as an integer literal yields that
integer (so `coerce("7") = 7`); any other string — including fractional
numeric literals such as `"3.5"` — yields `0` when its lowercased form is one
of `"false"`, `"no"`, `"off"` and `1` otherwise (so `coerce("3.5") = 1`). -/
theorem coerce_to_int_spec :
    (∀ n : Int, coerce_to_int (.int n) = n) ∧
    (∀ q : Rat, 0 ≤ q → coerce_to_int (.num q) = ⌊q⌋) ∧
    (∀ q : Rat, q < 0 → coerce_to_int (.num q) = ⌈q⌉) ∧
    (∀ s n, pyParseInt s = some n → coerce_to_int (.str s) = n) ∧
    (∀ s, pyParseInt s = none →
      String.mk (lowerList s.toList) ∈ falsyStrings →
      coerce_to_int (.str s) = 0) ∧
    (∀ s, pyParseInt s = none →
      String.mk (lowerList s.toList) ∉ falsyStrings →
      coerce_to_int (.str s) = 1) ∧
    coerce_to_int (.str "7") = 7 ∧
    coerce_to_int (.str "3.5") = 1 ∧
    coerce_to_int (.str "off") = 0 ∧
    coerce_to_int (.num (mkRat 7 2)) = 3 ∧
    coerce_to_int (.num (mkRat (-7) 2)) = -3 := by
  refine ⟨fun n => rfl,
    fun q hq => by simp [coerce_to_int, pyTrunc, hq],
    fun q hq => by simp [coerce_to_int, pyTrunc, not_le.mpr hq],
    fun s n h => by simp [coerce_to_int, h],
    fun s h hm => by
      simp only [String.toList] at hm
      simp [coerce_to_int, h, hm],
    fun s h hm => by
      simp only [String.toList] at hm
      simp [coerce_to_int, h, hm],
    by decide, by decide, by decide, by decide, by decide⟩

/-- Witness for C2's amended theorem: the general clauses applied at `"7"`,
`mkRat 7 2` and `"off"`. -/
theorem coerce_to_int_spec_witness :
    coerce_to_int (.str "7") = 7 ∧
    coerce_to_int (.num (mkRat 7 2)) = ⌊mkRat 7 2⌋ ∧
    coerce_to_int (.str "off") = 0 :=
  ⟨coerce_to_int_spec.2.2.2.1 "7" 7 (by decide),
   coerce_to_int_spec.2.1 (mkRat 7 2) (by decide),
   coerce_to_int_spec.2.2.2.2.1 "off" (by decide) (by decide)⟩

/-- C3 counterexample: under a version-2 library the raw code `-2` is
returned unchanged and is not the uniform failure code `constants.FAILED`
(`-1`), so "any negative raw code maps to failure" fails at raw code `-2`. -/
theorem normalize_ret_code_negative_counterexample :
    normalize_ret_code 2 (-2) = -2 ∧
    ¬ normalize_ret_code 2 (-2) = FAILED := by decide

/-- C3 amended: under a version-1 library raw `1` maps to `OK` and every
other raw code (in particular `0`) maps to `FAILED`; under a version ≥ 2
library the raw code is returned unchanged, so raw `0` maps to success
(`OK`) and raw `-1` — the failure code the library emits — to `FAILED`. -/
theorem normalize_ret_code_spec :
    (∀ r : Int, normalize_ret_code 1 r = if r = 1 then OK else FAILED) ∧
    (∀ v r : Int, 2 ≤ v → normalize_ret_code v r = r) ∧
    (∀ v : Int, 2 ≤ v →
      normalize_ret_code v 0 = OK ∧ normalize_ret_code v (-1) = FAILED) := by
  refine ⟨fun r => rfl, fun v r hv => ?_, fun v hv => ?_⟩
  · have h1 : v ≠ 1 := by omega
    simp [normalize_ret_code, h1]
  · have h1 : v ≠ 1 := by omega
    simp [normalize_ret_code, h1, OK, FAILED]

/-- Witness for C3's amended theorem at version 2. -/
theorem normalize_ret_code_spec_witness :
    normalize_ret_code 2 0 = OK ∧
    normalize_ret_code 2 (-1) = FAILED ∧
    normalize_ret_code 2 (-3) = -3 :=
  ⟨(normalize_ret_code_spec.2.2 2 (by decide)).1,
   (normalize_ret_code_spec.2.2 2 (by decide)).2,
   normalize_ret_code_spec.2.1 2 (-3) (by decide)⟩

/-- C4 counterexample: the three failure conditions the claim names as
distinguishable typed errors — string retrieval removed from the library,
key without a recognized kind, and a rejected underlying write — all raise
the very same exception value `KeyError("k")`, so they are not
distinguishable. -/
theorem settings_errors_indistinguishable :
    (getitem ⟨strLibNoGetstr, "med"⟩ "k").err = some (.keyError "k") ∧
    (getitem ⟨emptyLib, "med"⟩ "k").err = some (.keyError "k") ∧
    (setitem ⟨rejectingLib, "med"⟩ "k" (.num 1)).err = some (.keyError "k") ∧
    (getitem ⟨strLibNoGetstr, "med"⟩ "k").err =
      (getitem ⟨emptyLib, "med"⟩ "k").err ∧
    (getitem ⟨emptyLib, "med"⟩ "k").err =
      (setitem ⟨rejectingLib, "med"⟩ "k" (.num 1)).err := by decide

/-- C4 amended: each of the three failure conditions raises the same typed
error, `KeyError` carrying the key — reported to the immediate caller, never
swallowed — rather than three distinguishable error types: reading a
string-kind key when the handle has lost `fluid_settings_getstr`, any
operation on a key without a recognized kind, and a set whose underlying
write is rejected after return-code normalization. -/
theorem settings_errors_keyerror_spec :
    (∀ (fs : FluidSettings) (k : String),
      fluid_settings_get_type fs.lib k = FLUID_STR_TYPE →
      fs.lib.hasGetstr = false →
      (getitem fs k).err = some (.keyError k)) ∧
    (∀ (fs : FluidSettings) (k : String) (v : PyVal),
      fluid_settings_get_type fs.lib k = FLUID_NO_TYPE →
      (getitem fs k).err = some (.keyError k) ∧
      (setitem fs k v).err = some (.keyError k)) ∧
    (∀ (fs : FluidSettings) (k : String) (v : PyVal) (q : Rat),
      fs.lib.find k = some (.num q) → k ∈ fs.lib.rejectKeys →
      (setitem fs k v).err = some (.keyError k)) := by
  refine ⟨fun fs k hk hg => ?_, fun fs k v hk => ⟨?_, ?_⟩,
    fun fs k v q hf hrej => ?_⟩
  · simp [getitem, hk, hg, FLUID_NUM_TYPE, FLUID_INT_TYPE, FLUID_STR_TYPE]
  · simp [getitem, hk, FLUID_NO_TYPE, FLUID_NUM_TYPE, FLUID_INT_TYPE,
      FLUID_STR_TYPE]
  · simp [setitem, hk, FLUID_NO_TYPE, FLUID_NUM_TYPE, FLUID_INT_TYPE,
      FLUID_STR_TYPE]
  · have hk : fluid_settings_get_type fs.lib k = FLUID_NUM_TYPE := by
      simp [fluid_settings_get_type, hf]
    simp [setitem, hk, FLUID_STR_TYPE, FLUID_NUM_TYPE, fluid_settings_setnum,
      hf, hrej, normalize_rawCode_false fs.lib.version]

/-- Witness for C4's amended theorem: the three clauses applied at concrete
library states. -/
theorem settings_errors_keyerror_spec_witness :
    (getitem ⟨strLibNoGetstr, "x"⟩ "k").err = some (.keyError "k") ∧
    (setitem ⟨emptyLib, "x"⟩ "k" (.int 5)).err = some (.keyError "k") ∧
    (setitem ⟨rejectingLib, "x"⟩ "k" (.int 5)).err = some (.keyError "k") :=
  ⟨settings_errors_keyerror_spec.1 ⟨strLibNoGetstr, "x"⟩ "k" (by decide)
      (by decide),
   (settings_errors_keyerror_spec.2.1 ⟨emptyLib, "x"⟩ "k" (.int 5)
      (by decide)).2,
   settings_errors_keyerror_spec.2.2 ⟨rejectingLib, "x"⟩ "k" (.int 5) 0
      (by decide) (by decide)⟩

/-- C5: setting the quality preset writes the three underlying keys in the
single setter call, per the table low→(off, off, 22050),
med→(off, on, 44100), high→(on, on, 44100) — the integer switch keys store
`0` for off and `1` for on — and after setting high, chorus-active and
reverb-active read back as on and sample-rate as 44100. -/
theorem set_quality_table_spec (fs : FluidSettings) (h : qualityKeysOK fs.lib) :
    ((setQuality fs QUALITY_LOW).err = none ∧
     (setQuality fs QUALITY_LOW).fs.lib.find "synth.chorus.active" =
       some (.int 0) ∧
     (setQuality fs QUALITY_LOW).fs.lib.find "synth.reverb.active" =
       some (.int 0) ∧
     (setQuality fs QUALITY_LOW).fs.lib.find "synth.sample-rate" =
       some (.num 22050) ∧
     (setQuality fs QUALITY_LOW).calls =
       [.getType "synth.chorus.active", .setint "synth.chorus.active" 0,
        .getVersion,
        .getType "synth.reverb.active", .setint "synth.reverb.active" 0,
        .getVersion,
        .getType "synth.sample-rate", .setnum "synth.sample-rate" 22050,
        .getVersion]) ∧
    ((setQuality fs QUALITY_MEDIUM).err = none ∧
     (setQuality fs QUALITY_MEDIUM).fs.lib.find "synth.chorus.active" =
       some (.int 0) ∧
     (setQuality fs QUALITY_MEDIUM).fs.lib.find "synth.reverb.active" =
       some (.int 1) ∧
     (setQuality fs QUALITY_MEDIUM).fs.lib.find "synth.sample-rate" =
       some (.num 44100) ∧
     (setQuality fs QUALITY_MEDIUM).calls =
       [.getType "synth.chorus.active", .setint "synth.chorus.active" 0,
        .getVersion,
        .getType "synth.reverb.active", .setint "synth.reverb.active" 1,
        .getVersion,
        .getType "synth.sample-rate", .setnum "synth.sample-rate" 44100,
        .getVersion]) ∧
    ((setQuality fs QUALITY_HIGH).err = none ∧
     (setQuality fs QUALITY_HIGH).fs.lib.find "synth.chorus.active" =
       some (.int 1) ∧
     (setQuality fs QUALITY_HIGH).fs.lib.find "synth.reverb.active" =
       some (.int 1) ∧
     (setQuality fs QUALITY_HIGH).fs.lib.find "synth.sample-rate" =
       some (.num 44100) ∧
     (setQuality fs QUALITY_HIGH).calls =
       [.getType "synth.chorus.active", .setint "synth.chorus.active" 1,
        .getVersion,
        .getType "synth.reverb.active", .setint "synth.reverb.active" 1,
        .getVersion,
        .getType "synth.sample-rate", .setnum "synth.sample-rate" 44100,
        .getVersion]) ∧
    (getitem (setQuality fs QUALITY_HIGH).fs "synth.chorus.active").val =
      some (.int 1) ∧
    (getitem (setQuality fs QUALITY_HIGH).fs "synth.reverb.active").val =
      some (.int 1) ∧
    (getitem (setQuality fs QUALITY_HIGH).fs "synth.sample-rate").val =
      some (.num 44100) := by
  obtain ⟨⟨a, ha⟩, ⟨b, hb⟩, ⟨c, hc⟩, hr1, hr2, hr3⟩ := h
  have h2 : qualityKeysOK fs.lib :=
    ⟨⟨a, ha⟩, ⟨b, hb⟩, ⟨c, hc⟩, hr1, hr2, hr3⟩
  have hlow := setQuality_low_spec fs h2
  have hmed := setQuality_med_spec fs h2
  have hhigh := setQuality_high_spec fs h2
  have ne12 : ("synth.chorus.active" : String) ≠ "synth.reverb.active" := by
    decide
  have ne13 : ("synth.chorus.active" : String) ≠ "synth.sample-rate" := by
    decide
  have ne23 : ("synth.reverb.active" : String) ≠ "synth.sample-rate" := by
    decide
  have fch : ∀ (x y : Int) (z : Rat),
      (((fs.lib.store "synth.chorus.active" (.int x)).store
          "synth.reverb.active" (.int y)).store
          "synth.sample-rate" (.num z)).find "synth.chorus.active" =
        some (.int x) := by
    intro x y z
    rw [find_store_ne _ _ _ _ ne13, find_store_ne _ _ _ _ ne12,
      find_store_self fs.lib _ _ _ ha]
  have frev : ∀ (x y : Int) (z : Rat),
      (((fs.lib.store "synth.chorus.active" (.int x)).store
          "synth.reverb.active" (.int y)).store
          "synth.sample-rate" (.num z)).find "synth.reverb.active" =
        some (.int y) := by
    intro x y z
    have hmid : (fs.lib.store "synth.chorus.active" (.int x)).find
        "synth.reverb.active" = some (.int b) := by
      rw [find_store_ne _ _ _ _ ne12.symm]; exact hb
    rw [find_store_ne _ _ _ _ ne23, find_store_self _ _ _ _ hmid]
  have frate : ∀ (x y : Int) (z : Rat),
      (((fs.lib.store "synth.chorus.active" (.int x)).store
          "synth.reverb.active" (.int y)).store
          "synth.sample-rate" (.num z)).find "synth.sample-rate" =
        some (.num z) := by
    intro x y z
    have hmid : ((fs.lib.store "synth.chorus.active" (.int x)).store
        "synth.reverb.active" (.int y)).find "synth.sample-rate" =
        some (.num c) := by
      rw [find_store_ne _ _ _ _ ne23.symm, find_store_ne _ _ _ _ ne13.symm]
      exact hc
    rw [find_store_self _ _ _ _ hmid]
  refine ⟨⟨by simp [hlow], ?_, ?_, ?_, by simp [hlow]⟩,
    ⟨by simp [hmed], ?_, ?_, ?_, by simp [hmed]⟩,
    ⟨by simp [hhigh], ?_, ?_, ?_, by simp [hhigh]⟩, ?_, ?_, ?_⟩
  · simpa [hlow] using fch 0 0 22050
  · simpa [hlow] using frev 0 0 22050
  · simpa [hlow] using frate 0 0 22050
  · simpa [hmed] using fch 0 1 44100
  · simpa [hmed] using frev 0 1 44100
  · simpa [hmed] using frate 0 1 44100
  · simpa [hhigh] using fch 1 1 44100
  · simpa [hhigh] using frev 1 1 44100
  · simpa [hhigh] using frate 1 1 44100
  · rw [hhigh]
    rw [getitem_int_val _ _ 1 (fch 1 1 44100)]
  · rw [hhigh]
    rw [getitem_int_val _ _ 1 (frev 1 1 44100)]
  · rw [hhigh]
    rw [getitem_num_val _ _ 44100 (frate 1 1 44100)]

/-- Witness for C5: the theorem applied to the default library state. -/
theorem set_quality_table_spec_witness :
    (setQuality ⟨defaultLib, QUALITY_MEDIUM⟩ QUALITY_HIGH).err = none ∧
    (getitem (setQuality ⟨defaultLib, QUALITY_MEDIUM⟩ QUALITY_HIGH).fs
        "synth.chorus.active").val = some (.int 1) ∧
    (getitem (setQuality ⟨defaultLib, QUALITY_MEDIUM⟩ QUALITY_HIGH).fs
        "synth.sample-rate").val = some (.num 44100) := by
  have h := set_quality_table_spec ⟨defaultLib, QUALITY_MEDIUM⟩
    ⟨⟨0, by decide⟩, ⟨0, by decide⟩, ⟨44100, by decide⟩,
      by decide, by decide, by decide⟩
  exact ⟨h.2.2.1.1, h.2.2.2.1, h.2.2.2.2.2⟩

/-- C6: the quality getter returns the cached label: a freshly constructed
instance reads back medium; after setting any recognized preset the getter
returns exactly that preset, whatever the prior state; and individual writes
to settings keys never change the cached label. -/
theorem quality_cached_label_spec :
    (∀ lib : LibState, getQuality (FluidSettings.init lib).fs = QUALITY_MEDIUM) ∧
    (∀ (fs : FluidSettings) (p : String),
      p = QUALITY_LOW ∨ p = QUALITY_MEDIUM ∨ p = QUALITY_HIGH →
      getQuality (setQuality fs p).fs = p) ∧
    (∀ (fs : FluidSettings) (k : String) (v : PyVal),
      getQuality (setitem fs k v).fs = getQuality fs) := by
  refine ⟨fun lib => ?_, fun fs p _ => setQuality_sets_label fs p,
    fun fs k v => setitem_quality fs k v⟩
  show (setQuality ⟨lib, ""⟩ QUALITY_MEDIUM).fs.quality = QUALITY_MEDIUM
  exact setQuality_sets_label _ _

/-- Witness for C6: setting low over a prior high label reads back low. -/
theorem quality_cached_label_spec_witness :
    getQuality (setQuality ⟨defaultLib, QUALITY_HIGH⟩ QUALITY_LOW).fs =
      QUALITY_LOW :=
  quality_cached_label_spec.2.1 ⟨defaultLib, QUALITY_HIGH⟩ QUALITY_LOW
    (Or.inl rfl)

/-- C7: with window duration `SEQ_DURATION = 4 * TPB`, window `n` starts at
`start(0) + n * SEQ_DURATION`; each emission submits exactly one wake-up
timer at `start(n) + SEQ_DURATION / 2`, which is strictly before the window's
end tick `start(n) + SEQ_DURATION`; and the emission advances the next start
tick by exactly `SEQ_DURATION`. -/
theorem music_box_lookahead_spec :
    SEQ_DURATION = 4 * TPB ∧
    (∀ (s0 : Int) (n : Nat),
      windowStart s0 n = s0 + n * SEQ_DURATION ∧
      (schedule_next_sequence (windowStart s0 n)).2 =
        windowStart s0 n + SEQ_DURATION ∧
      (schedule_next_sequence (windowStart s0 n)).1.filter isTimer =
        [.timer (windowStart s0 n + SEQ_DURATION / 2)] ∧
      windowStart s0 n + SEQ_DURATION / 2 <
        windowStart s0 n + SEQ_DURATION) := by
  refine ⟨rfl, fun s0 n => ⟨?_, rfl, rfl, ?_⟩⟩
  · induction n with
    | zero => simp [windowStart]
    | succ m ih =>
      have hs : windowStart s0 (m + 1) =
          windowStart s0 m + SEQ_DURATION := rfl
      rw [hs, ih]
      push_cast
      ring
  · have h1 : (SEQ_DURATION / 2 : Int) = 480 := by decide
    have h2 : SEQ_DURATION = 960 := by decide
    rw [h1, h2]
    omega

/-- C8 (code bug): evaluating the player at the failing input — a freshly
constructed (paused) player on which `pause()` is called.  Construction sets
`paused = True`, `play()` sets it `False` and `stop()` sets it `True` as
claimed, but `pause()` from the paused state starts playback and then
re-negates the flag that `play()` already cleared, leaving `paused = True`
while the player is playing — not the negation of the prior value the claim
(and the member docstring "indicates if the player is playing or inactive")
requires. -/
theorem pause_flag_bug_eval :
    initPlayer.paused = true ∧
    initPlayer.playing = false ∧
    (FluidPlayer.play initPlayer).paused = false ∧
    (FluidPlayer.stop (FluidPlayer.play initPlayer)).paused = true ∧
    FluidPlayer.pause initPlayer = ⟨true, true⟩ ∧
    (FluidPlayer.pause initPlayer).playing = true ∧
    ¬ (FluidPlayer.pause initPlayer).paused = (!initPlayer.paused) := by
  decide

/-- C9 counterexample: construction queries `handle.get_version()` three
times (once per quality write), not once, and a set operation performed
after construction queries it again — the detection is not cached. -/
theorem version_query_per_call_counterexample :
    (FluidSettings.init defaultLib).calls.countP isGetVersion = 3 ∧
    ¬ (FluidSettings.init defaultLib).calls.countP isGetVersion = 1 ∧
    (setitem (FluidSettings.init defaultLib).fs "synth.gain"
        (.num 1)).calls.countP isGetVersion = 1 ∧
    ¬ (setitem (FluidSettings.init defaultLib).fs "synth.gain"
        (.num 1)).calls.countP isGetVersion = 0 := by decide

/-- C9 amended: the store does not cache the library version — every set
operation on a key with a recognized kind queries `handle.get_version()`
exactly once (inside `_normalize_ret_code`), a set on an unrecognized kind
never reaches the query, and construction itself performs the query three
times, once per quality-preset write. -/
theorem version_query_per_call_spec :
    (∀ (fs : FluidSettings) (k : String) (v : PyVal),
      fluid_settings_get_type fs.lib k = FLUID_STR_TYPE ∨
      fluid_settings_get_type fs.lib k = FLUID_NUM_TYPE ∨
      fluid_settings_get_type fs.lib k = FLUID_INT_TYPE →
      (setitem fs k v).calls.countP isGetVersion = 1) ∧
    (∀ (fs : FluidSettings) (k : String) (v : PyVal),
      fluid_settings_get_type fs.lib k = FLUID_NO_TYPE →
      (setitem fs k v).calls.countP isGetVersion = 0) ∧
    (FluidSettings.init defaultLib).calls.countP isGetVersion = 3 := by
  refine ⟨fun fs k v hk => ?_, fun fs k v hk => ?_, by decide⟩
  · rcases hk with hk | hk | hk <;>
      simp [setitem, hk, FLUID_STR_TYPE, FLUID_NUM_TYPE, FLUID_INT_TYPE,
        isGetVersion, List.countP, List.countP.go]
  · simp [setitem, hk, FLUID_NO_TYPE, FLUID_STR_TYPE, FLUID_NUM_TYPE,
      FLUID_INT_TYPE, isGetVersion, List.countP, List.countP.go]

/-- Witness for C9's amended theorem: one version query for a numeric-kind
write on the default library. -/
theorem version_query_per_call_spec_witness :
    (setitem ⟨defaultLib, QUALITY_MEDIUM⟩ "synth.gain"
        (.num 1)).calls.countP isGetVersion = 1 :=
  version_query_per_call_spec.1 ⟨defaultLib, QUALITY_MEDIUM⟩ "synth.gain"
    (.num 1) (Or.inr (Or.inl (by decide)))

/-- C10: assigning a label outside {low, med, high} to the quality property
stores the label unchanged (so the getter returns it), raises no error,
performs no native call and leaves the settings table — in particular
chorus-active, reverb-active and sample-rate — untouched. -/
theorem set_quality_unknown_preset_spec (fs : FluidSettings) (q : String)
    (h1 : q ≠ QUALITY_LOW) (h2 : q ≠ QUALITY_MEDIUM) (h3 : q ≠ QUALITY_HIGH) :
    setQuality fs q = ⟨none, ⟨fs.lib, q⟩, []⟩ := by
  simp [setQuality, h1, h2, h3]

/-- Witness for C10 at the label "banana". -/
theorem set_quality_unknown_preset_spec_witness :
    setQuality ⟨defaultLib, QUALITY_MEDIUM⟩ "banana" =
      ⟨none, ⟨defaultLib, "banana"⟩, []⟩ :=
  set_quality_unknown_preset_spec ⟨defaultLib, QUALITY_MEDIUM⟩ "banana"
    (by decide) (by decide) (by decide)

end PyFluidSynth
